import Mathlib

/-!
Verification development for the opencode-mcp bridge.

Part 1 embeds the response-formatting helpers (`src/helpers.ts`) and the
tool-handler error pattern (`src/tools/tui.ts`, `src/tools/project.ts`).
Part 2 models the resilient transport layer (Transport Client and Backend
Supervisor). The transport layer's implementation file is not part of the
sources available here, so those definitions are modelled from the
specification's own description of the algorithms, as indicated on each
definition.
-/

namespace OpencodeMcp

/-! ## Helpers (`src/helpers.ts`) -/

/-- One content item of an MCP tool result, as built by `toolResult` in
`src/helpers.ts`: `{ type: "text", text }`. -/
structure ToolContent where
  type : String
  text : String
deriving Repr, DecidableEq

/-- An MCP tool result: a list of content items plus the `isError` flag.
In the TypeScript source the flag is simply absent on success; we model
absence as `false`. -/
structure ToolResult where
  content : List ToolContent
  isError : Bool
deriving Repr, DecidableEq

/-- JavaScript `s.slice(0, n)`: the prefix of the string holding its
first `n` characters (all of it when `n ≥ s.length`). -/
def stringSliceTo (s : String) (n : Nat) : String :=
  ⟨s.data.take n⟩

/-- Embeds `safeStringify` from `src/helpers.ts`, parametrised by the
already-serialised JSON text (the source first computes
`JSON.stringify(value, null, 2)`; serialisation itself is outside the
model, so `json` stands for that string).  The source:

if (json.length <= maxLength) return json;
return json.slice(0, maxLength) + "\n\n... [truncated, " + (json.length - maxLength) + " more characters]";
-/
def safeStringify (json : String) (maxLength : Nat) : String :=
  if json.length ≤ maxLength then json
  else
    stringSliceTo json maxLength ++
      ("\n\n... [truncated, " ++ toString (json.length - maxLength) ++ " more characters]")

/-- The default for the `maxLength` parameter of `safeStringify`. -/
def safeStringifyDefaultMax : Nat := 50000

/-- A thrown JavaScript value as seen by `toolError`: either a genuine
`Error` instance (carrying `.message`) or any other value (carrying its
`String(e)` rendering). -/
inductive Exn where
  | error (message : String)
  | other (rendering : String)
deriving Repr, DecidableEq

/-- The text `toolError` extracts: `e instanceof Error ? e.message : String(e)`. -/
def exnMessage : Exn → String
  | .error m => m
  | .other s => s

/-- Embeds `toolResult` from `src/helpers.ts`. -/
def toolResult (text : String) (isError : Bool) : ToolResult :=
  { content := [{ type := "text", text := text }], isError := isError }

/-- Embeds `toolError` from `src/helpers.ts`:
`toolResult("Error: " + msg, true)`. -/
def toolError (e : Exn) : ToolResult :=
  toolResult ("Error: " ++ exnMessage e) true

/-- Embeds `toolJson` from `src/helpers.ts` (over the serialised body). -/
def toolJson (json : String) : ToolResult :=
  toolResult (safeStringify json safeStringifyDefaultMax) false

/-- The outer `try { ... } catch (e) { return toolError(e) }` wrapper
every registered tool handler ends in: the body either produces a result
or throws, and a value thrown out of the body is converted by
`toolError`.  A client call is modelled as `Except Exn`.  Note that this
wrapper alone does not determine what a thrown client call produces:
composite workflow handlers (`opencode_setup`, `opencode_context` in
`src/tools/workflow.ts`) additionally intercept client-call failures
inside the body and report them as normal, non-error text, so those
exceptions never reach this outer catch. -/
def runHandler (body : Except Exn ToolResult) : ToolResult :=
  match body with
  | .ok r => r
  | .error e => toolError e

/-- Embeds the `opencode_tui_append_prompt` handler from
`src/tools/tui.ts`: awaits `client.post("/tui/append-prompt", ...)` and
returns `toolResult("Text appended to prompt.")`, with the shared catch. -/
def tuiAppendPromptHandler (post : Except Exn Unit) : ToolResult :=
  runHandler (do
    let _ ← post
    pure (toolResult "Text appended to prompt." false))

/-- Embeds the `opencode_project_list` handler from
`src/tools/project.ts`: returns `toolJson(await client.get("/project"))`,
with the shared catch. -/
def projectListHandler (get : Except Exn String) : ToolResult :=
  runHandler (do
    let j ← get
    pure (toolJson j))

/-- Embeds the health-check stage of the `opencode_setup` handler from
`src/tools/workflow.ts`: the first client call
(`client.get("/global/health")`) is awaited inside an inner `try`; on
success the healthy Server section is built (carrying the reported
version) and the rest of the body continues — abstracted here as `rest`,
still guarded by the outer catch; on a thrown `e` the handler returns
the sections built so far, a Server section marked UNREACHABLE carrying
the exception's message, as a normal, non-error result
(`return toolResult(sections.join("\n\n"))`). -/
def opencodeSetupHandler (healthGet : Except Exn String)
    (rest : String → Except Exn ToolResult) : ToolResult :=
  runHandler
    (match healthGet with
    | .ok version =>
      rest ("## Server\nStatus: healthy\nVersion: " ++ version)
    | .error e =>
      pure (toolResult
        ("## Server\nStatus: UNREACHABLE — is `opencode serve` running?\nError: "
          ++ exnMessage e) false))

/-- Embeds the `.catch(() => null)` interception the `opencode_context`
handler in `src/tools/workflow.ts` attaches to each of its five client
calls: a thrown exception becomes `null`, so the handler reports the
remaining partial results as a normal result instead of an error. -/
def catchToNull {α : Type} (call : Except Exn α) : Option α :=
  match call with
  | .ok v => some v
  | .error _ => none

/-! ## Transport layer (Transport Client and Backend Supervisor)

The implementation file of this subsystem (`src/client.ts` /
`src/server-manager.ts`) is not among the available sources — only its
documentation, tests and callers are — so every definition below is
modelled from the specification's description of the algorithms. -/

/-- Modelled from the spec: the error taxonomy of the missing transport
client (`src/client.ts`) — `transient-http` (429/502/503/504),
`transient-connection` (refused/unreachable/DNS failure), `not-found`,
`auth`, `client-error`, `server-error`, `malformed-response`,
`validation-error`, `supervision-error`. -/
inductive ErrClass where
  | transientHttp
  | transientConnection
  | notFound
  | auth
  | clientError
  | serverError
  | malformedResponse
  | validationError
  | supervisionError
deriving Repr, DecidableEq

/-- Modelled from the spec: the kind of a single-attempt failure, the
input of the classifier — an HTTP error status, a connection-level
failure (refused / unreachable / DNS), or a response body that failed to
parse. -/
inductive FailureKind where
  | httpStatus (code : Nat)
  | connectionFailure
  | parseFailure
deriving Repr, DecidableEq

/-- Modelled from the spec: the pure classification function of the
missing transport client (`src/client.ts`): 429/502/503/504 ↦
transient-http, connection failure ↦ transient-connection, 404 ↦
not-found, 401/403 ↦ auth, other 4xx ↦ client-error, other 5xx ↦
server-error, unparseable body ↦ malformed-response.  (Statuses outside
4xx/5xx never reach the classifier; the final branch is an arbitrary
total-function completion.) -/
def classify : FailureKind → ErrClass
  | .connectionFailure => .transientConnection
  | .parseFailure => .malformedResponse
  | .httpStatus code =>
    if code = 429 ∨ code = 502 ∨ code = 503 ∨ code = 504 then .transientHttp
    else if code = 404 then .notFound
    else if code = 401 ∨ code = 403 then .auth
    else if 400 ≤ code ∧ code ≤ 499 then .clientError
    else .serverError

/-- Modelled from the spec: the `transient` classifications are the
retry candidates (`.isTransient` in the documented client API). -/
def isTransient : ErrClass → Bool
  | .transientHttp => true
  | .transientConnection => true
  | _ => false

/-- Modelled from the spec: the retry decision is taken on the already
computed classification of the failure, never on the raw failure. -/
def shouldRetry (k : FailureKind) : Bool :=
  isTransient (classify k)

/-- HTTP verbs accepted by the transport client. -/
inductive Verb where
  | get
  | post
  | patch
  | put
  | delete
deriving Repr, DecidableEq

/-- An HTTP response: a status code and a raw body. -/
structure HttpResponse where
  status : Nat
  body : String
deriving Repr, DecidableEq

/-- What the network produces for one attempt: a response, or a
connection-level failure (the backend could not be reached at all). -/
inductive NetOutcome where
  | response (r : HttpResponse)
  | connectionError
deriving Repr, DecidableEq

/-- A decoded success: either the explicit no-content sentinel (HTTP
204) or a parsed body. -/
inductive Body where
  | noContent
  | parsed (value : String)
deriving Repr, DecidableEq

/-- Outcome of one attempt after decoding. -/
inductive AttemptResult where
  | ok (b : Body)
  | fail (k : FailureKind)
deriving Repr, DecidableEq

/-- Modelled from the spec: executing a single attempt of the missing
transport client (`src/client.ts`) against one network outcome — HTTP
204 returns the explicit no-content sentinel without touching the body;
other 2xx statuses parse the body (an unparseable body is a
`malformed-response` failure); an error status is a failure of that
status; a connection-level error is a connection failure.  `parse`
stands for the response-body decoder. -/
def runAttempt (parse : String → Option String) (o : NetOutcome) : AttemptResult :=
  match o with
  | .connectionError => .fail .connectionFailure
  | .response r =>
    if r.status = 204 then .ok .noContent
    else if 200 ≤ r.status ∧ r.status ≤ 299 then
      match parse r.body with
      | some v => .ok (.parsed v)
      | none => .fail .parseFailure
    else .fail (.httpStatus r.status)

/-- Retry/backoff configuration consumed by the transport client:
attempt ceiling (default 3 attempts total), base delay, delay cap, and
the auto-supervision enable flag. -/
structure RetryConfig where
  maxAttempts : Nat
  baseDelay : Nat
  maxDelay : Nat
  autoServe : Bool
deriving Repr, DecidableEq

/-- Modelled from the spec: the delay waited before retrying after a
transient failure of attempt number `attempt`:
`base-delay * 2^(attempt-1)` capped at a maximum. -/
def backoffDelay (cfg : RetryConfig) (attempt : Nat) : Nat :=
  min (cfg.baseDelay * 2 ^ (attempt - 1)) cfg.maxDelay

/-- The observable trace of one run of the attempt loop: how many
network attempts were issued, the backoff delays waited between them,
and the final outcome. -/
structure CallResult where
  networkAttempts : Nat
  delays : List Nat
  result : Except ErrClass Body
deriving Repr

/-- Modelled from the spec: the retry loop of the missing transport
client (`src/client.ts`).  `oracle a` is what the network does on
attempt number `a`; `retriesLeft` is how many further attempts the
ceiling still allows.  A success stops the loop; a transient-classified
failure waits the backoff delay and retries while attempts remain; a
non-transient classification short-circuits immediately. -/
def attemptLoop (cfg : RetryConfig) (parse : String → Option String)
    (oracle : Nat → NetOutcome) (attempt : Nat) : Nat → CallResult
  | 0 =>
    match runAttempt parse (oracle attempt) with
    | .ok b => ⟨1, [], .ok b⟩
    | .fail k => ⟨1, [], .error (classify k)⟩
  | r + 1 =>
    match runAttempt parse (oracle attempt) with
    | .ok b => ⟨1, [], .ok b⟩
    | .fail k =>
      if shouldRetry k then
        let rest := attemptLoop cfg parse oracle (attempt + 1) r
        ⟨rest.networkAttempts + 1, backoffDelay cfg attempt :: rest.delays, rest.result⟩
      else ⟨1, [], .error (classify k)⟩

/-- A request descriptor: method, backend-relative path, ordered query
pairs, optional body, optional directory scope. -/
structure Descriptor where
  method : Verb
  path : String
  query : List (String × String)
  body : Option String
  directory : Option String
deriving Repr, DecidableEq

/-- Modelled from the spec: a directory scope must be normalized —
absolute (its first character is the path separator) and without a
trailing separator (its last character is not). -/
def normalizedAbsolute (d : String) : Bool :=
  (d.data.head? == some '/') && !(d.data.getLast? == some '/')

/-- Modelled from the spec: local validation of a directory scope
against the caller's filesystem (`fs` lists the paths that exist): the
path must be normalized absolute and must exist. -/
def validDirectory (fs : List String) (d : String) : Bool :=
  normalizedAbsolute d && fs.contains d

/-- Modelled from the spec: one full `request()` call of the missing
transport client (`src/client.ts`): validate and attach the directory
scope first — a validation failure is local, classified
`validation-error`, and issues zero network calls — then run the
attempt loop with the configured attempt ceiling. -/
def request (cfg : RetryConfig) (fs : List String) (parse : String → Option String)
    (oracle : Nat → NetOutcome) (desc : Descriptor) : CallResult :=
  match desc.directory with
  | some d =>
    if validDirectory fs d then attemptLoop cfg parse oracle 1 (cfg.maxAttempts - 1)
    else ⟨0, [], .error .validationError⟩
  | none => attemptLoop cfg parse oracle 1 (cfg.maxAttempts - 1)

/-- Modelled from the spec: the process-wide state of the bridge seen
by the reconnection orchestration — the Reconnection Budget counter. -/
structure BridgeState where
  budget : Nat
deriving Repr, DecidableEq

/-- The ceiling of the Reconnection Budget (default 3). -/
def reconnectCeiling : Nat := 3

/-- The outcome of one orchestrated call: the new bridge state, the
result surfaced to the caller, and whether the Backend Supervisor's
`ensureRunning()` was invoked. -/
structure OrchestratedOutcome where
  state : BridgeState
  result : Except ErrClass Body
  ensureRunningCalled : Bool
deriving Repr

/-- Modelled from the spec: the reconnection orchestration sitting above
the missing transport client — if every attempt failed with a
connection-level transient error, auto-supervision is enabled and the
Reconnection Budget is not exhausted, increment the budget, ask the
Backend Supervisor to ensure the backend is running, and re-run the
attempt loop once (`oracle2` is the network after the restart);
otherwise the classified result is surfaced directly and
`ensureRunning()` is not invoked. -/
def callWithReconnect (cfg : RetryConfig) (fs : List String)
    (parse : String → Option String) (oracle1 oracle2 : Nat → NetOutcome)
    (desc : Descriptor) (st : BridgeState) : OrchestratedOutcome :=
  match (request cfg fs parse oracle1 desc).result with
  | .error .transientConnection =>
    if cfg.autoServe && st.budget < reconnectCeiling then
      ⟨⟨st.budget + 1⟩, (request cfg fs parse oracle2 desc).result, true⟩
    else ⟨st, .error .transientConnection, false⟩
  | r => ⟨st, r, false⟩

/-- Modelled from the spec: the per-call information recorded by the
reconnection orchestration for one call in a whole bridge lifetime: the
two network oracles (before and after a possible supervised restart)
and the request descriptor. -/
structure CallInput where
  oracle1 : Nat → NetOutcome
  oracle2 : Nat → NetOutcome
  desc : Descriptor

/-- Modelled from the spec: the bridge state evolving over a sequence of
orchestrated calls — the Reconnection Budget is process-wide and lives
across calls, reset only by process restart. -/
def runCalls (cfg : RetryConfig) (fs : List String) (parse : String → Option String) :
    List CallInput → BridgeState → BridgeState
  | [], st => st
  | ci :: rest, st =>
    runCalls cfg fs parse rest
      (callWithReconnect cfg fs parse ci.oracle1 ci.oracle2 ci.desc st).state

/-! ## Backend Supervisor single-flight launch -/

/-- Modelled from the spec: the Backend Supervisor's launch state — is
a launch currently in flight, how many underlying child-process
launches have been executed, and the Reconnection Budget counter the
orchestration shares with it. -/
structure SupervisorState where
  launchInFlight : Bool
  launches : Nat
  budget : Nat
deriving Repr, DecidableEq

/-- Modelled from the spec: the atomic step one caller performs when it
encounters a transient-connection outage — a single in-flight
increment-and-check: if a launch is already in flight the caller joins
it and awaits its outcome; otherwise it increments the budget, starts a
new underlying launch and awaits it.  Returns the new state and the
identifier of the launch the caller awaits. -/
def callerArrive (st : SupervisorState) : SupervisorState × Nat :=
  if st.launchInFlight then (st, st.launches)
  else (⟨true, st.launches + 1, st.budget + 1⟩, st.launches + 1)

/-- Modelled from the spec: `n` concurrent callers that all detect the
same backend outage simultaneously, each performing its atomic
single-flight step; returns the final supervisor state and, per caller,
the launch identifier it awaits. -/
def simultaneousCallers (st : SupervisorState) : Nat → SupervisorState × List Nat
  | 0 => (st, [])
  | n + 1 =>
    let p := callerArrive st
    let q := simultaneousCallers p.1 n
    (q.1, p.2 :: q.2)

/-! ## SSE subscription (buffered line reassembly) -/

/-- Modelled from the spec: SSE frames are newline-delimited. -/
def frameDelimiter : Char := '\n'

/-- One signal yielded by an SSE subscription: a complete frame, or the
transport-ended signal on disconnect. -/
inductive SseSignal where
  | frame (content : List Char)
  | transportEnded
deriving Repr, DecidableEq

/-- Modelled from the spec: the buffered line-reassembly state machine
of the missing SSE subscriber (`src/client.ts`) — scan the received
characters, emit the buffered frame each time the delimiter is reached,
and retain the unterminated remainder in the buffer. -/
def scanBuffer (buffer : List Char) : List Char → List (List Char) × List Char
  | [] => ([], buffer)
  | c :: rest =>
    if c = frameDelimiter then
      let q := scanBuffer [] rest
      (buffer :: q.1, q.2)
    else scanBuffer (buffer ++ [c]) rest

/-- Modelled from the spec: feeding the successive network reads of a
subscription through the reassembly buffer, collecting the frames in
the order they complete. -/
def feedChunks (buffer : List Char) : List (List Char) → List (List Char) × List Char
  | [] => ([], buffer)
  | ch :: rest =>
    let p := scanBuffer buffer ch
    let q := feedChunks p.2 rest
    (p.1 ++ q.1, q.2)

/-- Modelled from the spec: an SSE subscription over a byte stream that
disconnects after its last read — it yields each frame once its full
delimiter-terminated unit has been buffered and, on disconnect,
terminates with the transport-ended signal; a partial frame left in the
buffer is never yielded. -/
def subscribeSSE (chunks : List (List Char)) : List SseSignal :=
  ((feedChunks [] chunks).1).map .frame ++ [.transportEnded]

/-! ## Theorems -/

/-- Helper: an attempt loop whose first attempt succeeds stops after
that single attempt, whatever the remaining attempt budget. -/
theorem attemptLoop_first_ok (cfg : RetryConfig) (parse : String → Option String)
    (oracle : Nat → NetOutcome) (attempt : Nat) (b : Body)
    (h : runAttempt parse (oracle attempt) = .ok b) :
    ∀ retriesLeft, attemptLoop cfg parse oracle attempt retriesLeft = ⟨1, [], .ok b⟩ := by
  intro retriesLeft
  cases retriesLeft <;> simp [attemptLoop, h]

/-- Helper: an attempt loop whose first attempt fails with a
non-retryable classification stops after that single attempt, whatever
the remaining attempt budget. -/
theorem attemptLoop_first_fail_stop (cfg : RetryConfig) (parse : String → Option String)
    (oracle : Nat → NetOutcome) (attempt : Nat) (k : FailureKind)
    (h : runAttempt parse (oracle attempt) = .fail k) (hk : shouldRetry k = false) :
    ∀ retriesLeft,
      attemptLoop cfg parse oracle attempt retriesLeft = ⟨1, [], .error (classify k)⟩ := by
  intro retriesLeft
  cases retriesLeft <;> simp [attemptLoop, h, hk]

/-- C9 counterexample: the registered handler `opencode_setup`
(`src/tools/workflow.ts`), when its underlying health-check client call
throws `Error("ECONNREFUSED")`, returns a result with `isError` unset
(false) whose text is the UNREACHABLE report — not `toolError`'s
`"Error: ECONNREFUSED"` — refuting, at this concrete input, the claim
that every registered handler maps a thrown client-call exception to an
`isError` result with that text. -/
theorem opencode_setup_counterexample :
    (opencodeSetupHandler (.error (.error "ECONNREFUSED"))
        (fun s => pure (toolResult s false))).isError = false ∧
    opencodeSetupHandler (.error (.error "ECONNREFUSED"))
        (fun s => pure (toolResult s false)) ≠
      toolError (.error "ECONNREFUSED") :=
  ⟨rfl, by decide⟩

/-- C9 (amended): for every registered tool handler whose body forwards
client-call exceptions to the shared outer catch — all registered
handlers except the composite workflow handlers (`opencode_setup`,
`opencode_context`) that intercept client-call failures inside the body
and report them as normal text — an exception thrown by the underlying
client call yields a tool result with `isError` set to `true` whose text
is `"Error: "` followed by the exception's message (or its string
rendering for a non-Error value); and no handler, the intercepting ones
included, lets an exception propagate to the dispatch loop: each returns
an ordinary `ToolResult` (`opencode_setup` its UNREACHABLE report,
`opencode_context` a partial result after turning the failed call into
`null`). -/
theorem handlers_exception_reporting (e : Exn) :
    tuiAppendPromptHandler (.error e) = toolError e ∧
    projectListHandler (.error e) = toolError e ∧
    runHandler (.error e) = toolError e ∧
    (toolError e).isError = true ∧
    (toolError e).content = [⟨"text", "Error: " ++ exnMessage e⟩] ∧
    (∀ m, exnMessage (.error m) = m) ∧
    (∀ s, exnMessage (.other s) = s) ∧
    (∀ rest, opencodeSetupHandler (.error e) rest =
      toolResult
        ("## Server\nStatus: UNREACHABLE — is `opencode serve` running?\nError: "
          ++ exnMessage e) false) ∧
    catchToNull (.error e) = (none : Option String) :=
  ⟨rfl, rfl, rfl, rfl, rfl, fun _ => rfl, fun _ => rfl, fun _ => rfl, rfl⟩

/-- C10: `safeStringify` returns the serialised JSON unchanged whenever
its length is at most `maxLength`, and otherwise returns exactly the
first `maxLength` characters followed by a truncation notice stating the
exact number of omitted characters; the untruncated prefix never exceeds
`maxLength` characters. -/
theorem safeStringify_truncation (json : String) (maxLength : Nat) :
    (json.length ≤ maxLength → safeStringify json maxLength = json) ∧
    (maxLength < json.length →
      safeStringify json maxLength =
        stringSliceTo json maxLength ++
          ("\n\n... [truncated, " ++ toString (json.length - maxLength) ++ " more characters]") ∧
      (stringSliceTo json maxLength).data = json.data.take maxLength ∧
      (stringSliceTo json maxLength).length ≤ maxLength) := by
  refine ⟨fun h => by simp [safeStringify, h], fun h => ⟨?_, rfl, ?_⟩⟩
  · simp [safeStringify, Nat.not_le.mpr h]
  · show (json.data.take maxLength).length ≤ maxLength
    simp

/-- Closed witness for `safeStringify_truncation`: the untruncated case
at length 6 against a cap of 10, and the truncated case against a cap of
3, which keeps exactly 3 characters and reports 3 omitted. -/
theorem safeStringify_truncation_witness :
    ("stars".length ≤ 10 ∧ safeStringify "stars" 10 = "stars") ∧
    (3 < "galaxy".length ∧
      safeStringify "galaxy" 3 =
        stringSliceTo "galaxy" 3 ++
          ("\n\n... [truncated, " ++ toString ("galaxy".length - 3) ++ " more characters]")) :=
  ⟨⟨by decide, (safeStringify_truncation "stars" 10).1 (by decide)⟩,
   ⟨by decide, ((safeStringify_truncation "galaxy" 3).2 (by decide)).1⟩⟩

/-- C5: a request whose directory scope fails local validation (the path
does not exist on the caller's filesystem, or is not a normalized
absolute path) fails with the `validation-error` classification and
issues zero network calls. -/
theorem request_invalid_directory (cfg : RetryConfig) (fs : List String)
    (parse : String → Option String) (oracle : Nat → NetOutcome)
    (desc : Descriptor) (d : String)
    (hdir : desc.directory = some d) (hbad : validDirectory fs d = false) :
    request cfg fs parse oracle desc = ⟨0, [], .error .validationError⟩ := by
  simp [request, hdir, hbad]

/-- Closed witness for `request_invalid_directory`: a directory scope
naming a path absent from the filesystem issues zero network calls. -/
theorem request_invalid_directory_witness :
    ((⟨.get, "/project", [], none, some "/missing"⟩ : Descriptor).directory = some "/missing") ∧
    validDirectory ["/home/dev"] "/missing" = false ∧
    request ⟨3, 500, 5000, true⟩ ["/home/dev"] Option.some (fun _ => .connectionError)
        ⟨.get, "/project", [], none, some "/missing"⟩ =
      ⟨0, [], .error .validationError⟩ :=
  ⟨rfl, by decide,
    request_invalid_directory ⟨3, 500, 5000, true⟩ ["/home/dev"] Option.some
      (fun _ => .connectionError) ⟨.get, "/project", [], none, some "/missing"⟩
      "/missing" rfl (by decide)⟩

/-- C8: for every HTTP verb (GET, POST, PATCH, PUT, DELETE are all the
verbs the model admits), a 204 response makes the request operation
return the no-content success sentinel in a single attempt, for every
body decoder alike — so no body is parsed and no malformed-response
error can arise. -/
theorem request_204_no_content (cfg : RetryConfig) (fs : List String)
    (oracle : Nat → NetOutcome) (method : Verb) (path : String)
    (query : List (String × String)) (reqBody : Option String) (respBody : String)
    (h1 : oracle 1 = .response ⟨204, respBody⟩) :
    ∀ parse : String → Option String,
      request cfg fs parse oracle ⟨method, path, query, reqBody, none⟩ =
        ⟨1, [], .ok .noContent⟩ := by
  intro parse
  have e : runAttempt parse (oracle 1) = .ok .noContent := by
    simp [runAttempt, h1]
  simp [request, attemptLoop_first_ok cfg parse oracle 1 .noContent e]

/-- Closed witness for `request_204_no_content`: a DELETE answered by
204 yields the no-content sentinel even under a decoder that rejects
every body. -/
theorem request_204_no_content_witness :
    ((fun _ : Nat => NetOutcome.response ⟨204, ""⟩) 1 = .response ⟨204, ""⟩) ∧
    request ⟨3, 500, 5000, true⟩ [] (fun _ => none)
        (fun _ => .response ⟨204, ""⟩) ⟨.delete, "/session/s1", [], none, none⟩ =
      ⟨1, [], .ok .noContent⟩ :=
  ⟨rfl,
    request_204_no_content ⟨3, 500, 5000, true⟩ [] (fun _ => .response ⟨204, ""⟩)
      .delete "/session/s1" [] none "" rfl (fun _ => none)⟩

/-- C6: error classification is a total, deterministic, pure function of
the status code or exception kind assigning exactly one tag to every
failure: transient for 429/502/503/504 (transient-http) or a
connection-level failure (transient-connection), not-found for 404, auth
for 401/403, client-error for every other 4xx, server-error for every
other 5xx, malformed for an unparseable body; and the retry decision is
computed from the classification, never from the raw failure. -/
theorem classification_pure_total :
    (∀ s, (s = 429 ∨ s = 502 ∨ s = 503 ∨ s = 504) →
      classify (.httpStatus s) = .transientHttp ∧
      isTransient (classify (.httpStatus s)) = true) ∧
    (classify .connectionFailure = .transientConnection ∧
      isTransient (classify .connectionFailure) = true) ∧
    classify (.httpStatus 404) = .notFound ∧
    (classify (.httpStatus 401) = .auth ∧ classify (.httpStatus 403) = .auth) ∧
    (∀ s, 400 ≤ s → s ≤ 499 → s ≠ 401 → s ≠ 403 → s ≠ 404 → s ≠ 429 →
      classify (.httpStatus s) = .clientError) ∧
    (∀ s, 500 ≤ s → s ≤ 599 → s ≠ 502 → s ≠ 503 → s ≠ 504 →
      classify (.httpStatus s) = .serverError) ∧
    classify .parseFailure = .malformedResponse ∧
    (∀ k, shouldRetry k = isTransient (classify k)) ∧
    (∀ k, ∃! c, classify k = c) := by
  refine ⟨?_, by decide, by decide, ⟨by decide, by decide⟩, ?_, ?_, by decide,
    fun k => rfl, fun k => ⟨classify k, rfl, fun c hc => hc.symm⟩⟩
  · intro s hs
    rcases hs with rfl | rfl | rfl | rfl <;> exact ⟨by decide, by decide⟩
  · intro s h1 h2 h3 h4 h5 h6
    simp only [classify]
    rw [if_neg (by omega), if_neg (by omega), if_neg (by omega), if_pos (by omega)]
  · intro s h1 h2 h3 h4 h5
    simp only [classify]
    rw [if_neg (by omega), if_neg (by omega), if_neg (by omega), if_neg (by omega)]

/-- Closed witness for `classification_pure_total`: the hypothesised
conjuncts applied at 503, 422 and 500. -/
theorem classification_pure_total_witness :
    classify (.httpStatus 503) = .transientHttp ∧
    classify (.httpStatus 422) = .clientError ∧
    classify (.httpStatus 500) = .serverError :=
  ⟨(classification_pure_total.1 503 (Or.inr (Or.inr (Or.inl rfl)))).1,
   classification_pure_total.2.2.2.2.1 422 (by decide) (by decide) (by decide)
     (by decide) (by decide) (by decide),
   classification_pure_total.2.2.2.2.2.1 500 (by decide) (by decide) (by decide)
     (by decide) (by decide)⟩

/-- C2: a request whose first attempt fails with one of the
non-transient statuses 400, 401, 403, 404, 422 performs no second
attempt — exactly one network attempt, no backoff delay — and returns
that classified error immediately. -/
theorem request_non_transient_no_retry (cfg : RetryConfig) (fs : List String)
    (parse : String → Option String) (oracle : Nat → NetOutcome) (s : Nat)
    (respBody : String) (method : Verb) (path : String)
    (query : List (String × String)) (reqBody : Option String)
    (hs : s = 400 ∨ s = 401 ∨ s = 403 ∨ s = 404 ∨ s = 422)
    (h1 : oracle 1 = .response ⟨s, respBody⟩) :
    request cfg fs parse oracle ⟨method, path, query, reqBody, none⟩ =
      ⟨1, [], .error (classify (.httpStatus s))⟩ ∧
    isTransient (classify (.httpStatus s)) = false := by
  have h204 : s ≠ 204 := by rcases hs with rfl | rfl | rfl | rfl | rfl <;> decide
  have h2xx : ¬(200 ≤ s ∧ s ≤ 299) := by
    rcases hs with rfl | rfl | rfl | rfl | rfl <;> decide
  have e : runAttempt parse (oracle 1) = .fail (.httpStatus s) := by
    simp [runAttempt, h1, h204, h2xx]
  have hk : shouldRetry (.httpStatus s) = false := by
    rcases hs with rfl | rfl | rfl | rfl | rfl <;> decide
  exact ⟨by simp [request, attemptLoop_first_fail_stop cfg parse oracle 1
    (.httpStatus s) e hk], hk⟩

/-- Closed witness for `request_non_transient_no_retry`: a 404 answer is
surfaced as `not-found` after a single attempt. -/
theorem request_non_transient_no_retry_witness :
    ((fun _ : Nat => NetOutcome.response ⟨404, ""⟩) 1 = .response ⟨404, ""⟩) ∧
    request ⟨3, 500, 5000, true⟩ [] Option.some (fun _ => .response ⟨404, ""⟩)
        ⟨.get, "/session/s1", [], none, none⟩ =
      ⟨1, [], .error (classify (.httpStatus 404))⟩ :=
  ⟨rfl,
    (request_non_transient_no_retry ⟨3, 500, 5000, true⟩ [] Option.some
      (fun _ => .response ⟨404, ""⟩) 404 "" .get "/session/s1" [] none
      (Or.inr (Or.inr (Or.inr (Or.inl rfl)))) rfl).1⟩

/-- C1: a request whose attempts fail with a transient HTTP status (429,
502, 503, 504) is retried with delay `base-delay * 2^(attempt-1)` capped
at the configured maximum before each retry; with the attempt ceiling of
3 the delays are strictly increasing, and the call finally either
returns the successful response or fails with the transient-http
classification. -/
theorem request_retries_transient_http (cfg : RetryConfig) (s : Nat)
    (h3 : cfg.maxAttempts = 3) (hb : 0 < cfg.baseDelay)
    (hc : 2 * cfg.baseDelay ≤ cfg.maxDelay)
    (hs : s = 429 ∨ s = 502 ∨ s = 503 ∨ s = 504) :
    (∀ (parse : String → Option String) (oracle : Nat → NetOutcome)
        (respBody : String) (desc : Descriptor), desc.directory = none →
        (∀ a, oracle a = .response ⟨s, respBody⟩) →
        request cfg [] parse oracle desc =
          ⟨3, [cfg.baseDelay, 2 * cfg.baseDelay], .error .transientHttp⟩ ∧
        cfg.baseDelay < 2 * cfg.baseDelay) ∧
    (∀ (parse : String → Option String) (oracle : Nat → NetOutcome)
        (respBody v : String) (desc : Descriptor), desc.directory = none →
        oracle 1 = .response ⟨s, respBody⟩ → oracle 2 = .response ⟨s, respBody⟩ →
        oracle 3 = .response ⟨200, v⟩ → parse v = some v →
        request cfg [] parse oracle desc =
          ⟨3, [cfg.baseDelay, 2 * cfg.baseDelay], .ok (.parsed v)⟩) := by
  have hmin1 : min (cfg.baseDelay * 2 ^ (1 - 1)) cfg.maxDelay = cfg.baseDelay := by
    simp [Nat.min_eq_left (by omega : cfg.baseDelay ≤ cfg.maxDelay)]
  have hmin2 : min (cfg.baseDelay * 2 ^ (2 - 1)) cfg.maxDelay = 2 * cfg.baseDelay := by
    have : cfg.baseDelay * 2 ^ (2 - 1) = 2 * cfg.baseDelay := by ring
    rw [this, Nat.min_eq_left (by omega)]
  constructor
  · intro parse oracle respBody desc hdir hfail
    refine ⟨?_, by omega⟩
    rcases hs with rfl | rfl | rfl | rfl <;>
      simp [request, hdir, h3, attemptLoop, runAttempt, hfail, shouldRetry,
        classify, isTransient, backoffDelay, hmin1, hmin2] <;> omega
  · intro parse oracle respBody v desc hdir ho1 ho2 ho3 hparse
    rcases hs with rfl | rfl | rfl | rfl <;>
      simp [request, hdir, h3, attemptLoop, runAttempt, ho1, ho2, ho3, hparse,
        shouldRetry, classify, isTransient, backoffDelay, hmin1, hmin2] <;> omega

/-- Closed witness for `request_retries_transient_http`: with base delay
500 capped at 5000, three 503 answers produce three attempts, delays 500
then 1000, and a transient-http failure. -/
theorem request_retries_transient_http_witness :
    request ⟨3, 500, 5000, true⟩ [] Option.some (fun _ => .response ⟨503, ""⟩)
        ⟨.get, "/event", [], none, none⟩ =
      ⟨3, [500, 2 * 500], .error .transientHttp⟩ ∧
    (500 : Nat) < 2 * 500 :=
  (request_retries_transient_http ⟨3, 500, 5000, true⟩ 503 rfl (by decide)
      (by decide) (Or.inr (Or.inr (Or.inl rfl)))).1 Option.some
    (fun _ => .response ⟨503, ""⟩) "" ⟨.get, "/event", [], none, none⟩ rfl
    (fun _ => rfl)

/-- Helper: when the backend is unreachable on every attempt, the
attempt loop exhausts its attempts and reports `transient-connection`. -/
theorem attemptLoop_all_connectionError (cfg : RetryConfig)
    (parse : String → Option String) (oracle : Nat → NetOutcome)
    (h : ∀ n, oracle n = .connectionError) :
    ∀ r a, (attemptLoop cfg parse oracle a r).result = .error .transientConnection := by
  intro r
  induction r with
  | zero =>
    intro a
    have e : runAttempt parse (oracle a) = .fail .connectionFailure := by
      simp [runAttempt, h a]
    simp [attemptLoop, e, shouldRetry, classify, isTransient]
  | succ r ih =>
    intro a
    have e : runAttempt parse (oracle a) = .fail .connectionFailure := by
      simp [runAttempt, h a]
    simp [attemptLoop, e, shouldRetry, classify, isTransient, ih (a + 1)]

/-- Helper: monotonicity of the budget across one orchestrated call. -/
theorem callWithReconnect_budget_mono (cfg : RetryConfig) (fs : List String)
    (parse : String → Option String) (o1 o2 : Nat → NetOutcome)
    (desc : Descriptor) (st : BridgeState) :
    st.budget ≤ (callWithReconnect cfg fs parse o1 o2 desc st).state.budget := by
  unfold callWithReconnect
  split
  · split <;> simp
  · simp

/-- C3: the Reconnection Budget is monotonically non-decreasing over the
lifetime of the bridge process (each orchestrated call can only grow it,
hence so does any sequence of calls), and once it has reached its
ceiling of 3, a subsequent connection failure is returned to the caller
immediately, without invoking the Backend Supervisor's `ensureRunning()`
again. -/
theorem reconnection_budget_invariant :
    (∀ (cfg : RetryConfig) (fs : List String) (parse : String → Option String)
        (o1 o2 : Nat → NetOutcome) (desc : Descriptor) (st : BridgeState),
      st.budget ≤ (callWithReconnect cfg fs parse o1 o2 desc st).state.budget) ∧
    (∀ (cfg : RetryConfig) (fs : List String) (parse : String → Option String)
        (calls : List CallInput) (st : BridgeState),
      st.budget ≤ (runCalls cfg fs parse calls st).budget) ∧
    (∀ (cfg : RetryConfig) (fs : List String) (parse : String → Option String)
        (o1 o2 : Nat → NetOutcome) (desc : Descriptor) (st : BridgeState),
      desc.directory = none →
      reconnectCeiling ≤ st.budget →
      (∀ n, o1 n = .connectionError) →
      callWithReconnect cfg fs parse o1 o2 desc st =
        ⟨st, .error .transientConnection, false⟩) := by
  refine ⟨callWithReconnect_budget_mono, ?_, ?_⟩
  · intro cfg fs parse calls
    induction calls with
    | nil => intro st; simp [runCalls]
    | cons ci rest ih =>
      intro st
      calc st.budget
          ≤ (callWithReconnect cfg fs parse ci.oracle1 ci.oracle2 ci.desc st).state.budget :=
            callWithReconnect_budget_mono cfg fs parse ci.oracle1 ci.oracle2 ci.desc st
        _ ≤ _ := ih _
  · intro cfg fs parse o1 o2 desc st hdir hceil hconn
    have hres : (request cfg fs parse o1 desc).result = .error .transientConnection := by
      simp only [request, hdir]
      exact attemptLoop_all_connectionError cfg parse o1 hconn _ 1
    have hlt : ¬ st.budget < reconnectCeiling := Nat.not_lt.mpr hceil
    unfold callWithReconnect
    rw [hres]
    simp [hlt]

/-- Closed witness for `reconnection_budget_invariant`: with the budget
already at the ceiling 3, a call whose every attempt hits a connection
error is surfaced directly and `ensureRunning()` is not invoked. -/
theorem reconnection_budget_invariant_witness :
    reconnectCeiling ≤ (3 : Nat) ∧
    callWithReconnect ⟨3, 500, 5000, true⟩ [] Option.some
        (fun _ => .connectionError) (fun _ => .connectionError)
        ⟨.get, "/project", [], none, none⟩ ⟨3⟩ =
      ⟨⟨3⟩, .error .transientConnection, false⟩ :=
  ⟨by decide,
    reconnection_budget_invariant.2.2 ⟨3, 500, 5000, true⟩ [] Option.some
      (fun _ => .connectionError) (fun _ => .connectionError)
      ⟨.get, "/project", [], none, none⟩ ⟨3⟩ rfl (by decide) (fun _ => rfl)⟩

/-- Helper: once a launch is in flight, every further simultaneous
caller joins it without changing the supervisor state. -/
theorem simultaneousCallers_inFlight (st : SupervisorState)
    (h : st.launchInFlight = true) :
    ∀ n, simultaneousCallers st n = (st, List.replicate n st.launches) := by
  intro n
  induction n with
  | zero => simp [simultaneousCallers]
  | succ n ih => simp [simultaneousCallers, callerArrive, h, ih, List.replicate_succ]

/-- C7: when `n ≥ 1` concurrent callers all encounter a
transient-connection failure simultaneously while no launch is in
flight, the Backend Supervisor executes the underlying child-process
launch exactly once, the Reconnection Budget is incremented by exactly
one (not `n`), and every caller awaits that single launch's outcome. -/
theorem supervisor_single_flight (st : SupervisorState) (n : Nat)
    (h0 : st.launchInFlight = false) (hn : 1 ≤ n) :
    simultaneousCallers st n =
      (⟨true, st.launches + 1, st.budget + 1⟩,
        List.replicate n (st.launches + 1)) := by
  obtain ⟨m, rfl⟩ : ∃ m, n = m + 1 := ⟨n - 1, by omega⟩
  simp [simultaneousCallers, callerArrive, h0,
    simultaneousCallers_inFlight ⟨true, st.launches + 1, st.budget + 1⟩ rfl m,
    List.replicate_succ]

/-- Closed witness for `supervisor_single_flight`: five simultaneous
callers from a quiescent supervisor produce one launch, one budget
increment, and five waits on launch number 1. -/
theorem supervisor_single_flight_witness :
    simultaneousCallers ⟨false, 0, 0⟩ 5 =
      (⟨true, 1, 1⟩, List.replicate 5 1) :=
  supervisor_single_flight ⟨false, 0, 0⟩ 5 rfl (by decide)

/-- Helper: scanning a concatenation is scanning the first part and
then the second from the buffer the first part left behind. -/
theorem scanBuffer_append (a b : List Char) :
    ∀ buffer, scanBuffer buffer (a ++ b) =
      ((scanBuffer buffer a).1 ++ (scanBuffer (scanBuffer buffer a).2 b).1,
        (scanBuffer (scanBuffer buffer a).2 b).2) := by
  induction a with
  | nil => intro buffer; simp [scanBuffer]
  | cons c rest ih =>
    intro buffer
    by_cases hc : c = frameDelimiter
    · simp [scanBuffer, hc, ih []]
    · simp [scanBuffer, hc, ih (buffer ++ [c])]

/-- Helper: feeding the chunks one network read at a time produces
exactly what one scan of the whole concatenated stream produces —
frame reassembly is invariant under how the bytes split across reads. -/
theorem feedChunks_join (chunks : List (List Char)) :
    ∀ buffer, feedChunks buffer chunks = scanBuffer buffer chunks.flatten := by
  induction chunks with
  | nil => intro buffer; simp [feedChunks, scanBuffer]
  | cons ch rest ih =>
    intro buffer
    simp [feedChunks, ih, scanBuffer_append ch rest.flatten buffer]

/-- Helper: a delimiter-free run is wholly buffered and emits nothing. -/
theorem scanBuffer_no_delimiter (f : List Char) (hf : frameDelimiter ∉ f) :
    ∀ buffer, scanBuffer buffer f = ([], buffer ++ f) := by
  induction f with
  | nil => intro buffer; simp [scanBuffer]
  | cons c rest ih =>
    intro buffer
    have hc : c ≠ frameDelimiter := fun he => hf (he ▸ List.mem_cons_self c rest)
    have hrest : frameDelimiter ∉ rest := fun hm => hf (List.mem_cons_of_mem c hm)
    simp [scanBuffer, hc, ih hrest (buffer ++ [c])]

/-- Helper: scanning a stream of delimiter-terminated frames followed by
a delimiter-free tail emits exactly those frames and buffers the tail. -/
theorem scanBuffer_frames (frames : List (List Char)) (tail : List Char)
    (hfs : ∀ f ∈ frames, frameDelimiter ∉ f) (htail : frameDelimiter ∉ tail) :
    scanBuffer [] ((frames.map (· ++ [frameDelimiter])).flatten ++ tail) = (frames, tail) := by
  induction frames with
  | nil => simp [scanBuffer_no_delimiter tail htail []]
  | cons f rest ih =>
    have hf : frameDelimiter ∉ f := hfs f (List.mem_cons_self f rest)
    have hrest : ∀ g ∈ rest, frameDelimiter ∉ g :=
      fun g hg => hfs g (List.mem_cons_of_mem f hg)
    have assoc :
        (((f :: rest).map (· ++ [frameDelimiter])).flatten ++ tail) =
          f ++ (frameDelimiter :: ((rest.map (· ++ [frameDelimiter])).flatten ++ tail)) := by
      simp
    rw [assoc, scanBuffer_append f (frameDelimiter :: ((rest.map (· ++ [frameDelimiter])).flatten ++ tail)) []]
    simp [scanBuffer_no_delimiter f hf [], scanBuffer, ih hrest]

/-- C4: an SSE subscription whose byte stream consists of complete
delimiter-terminated frames followed by a disconnect in the middle of a
further frame yields exactly the complete frames, in order — each
emitted only once its full delimiter-terminated unit has been buffered —
then terminates with the transport-ended signal, and never yields the
partial frame; and this holds regardless of how the bytes are split
across network reads. -/
theorem sse_subscription_frames (chunks : List (List Char))
    (frames : List (List Char)) (tail : List Char)
    (hfs : ∀ f ∈ frames, frameDelimiter ∉ f) (htail : frameDelimiter ∉ tail)
    (hjoin : chunks.flatten = (frames.map (· ++ [frameDelimiter])).flatten ++ tail) :
    subscribeSSE chunks = frames.map .frame ++ [.transportEnded] := by
  unfold subscribeSSE
  rw [feedChunks_join chunks [], hjoin, scanBuffer_frames frames tail hfs htail]

/-- Closed witness for `sse_subscription_frames`: three complete frames
`a`, `b`, `c` followed by a mid-frame disconnect after `x`, split
unevenly across three network reads, yield exactly the three frames and
the transport-ended signal. -/
theorem sse_subscription_frames_witness :
    subscribeSSE [['a'], ['\n', 'b'], ['\n', 'c', '\n', 'x']] =
      [.frame ['a'], .frame ['b'], .frame ['c'], .transportEnded] :=
  sse_subscription_frames [['a'], ['\n', 'b'], ['\n', 'c', '\n', 'x']]
    [['a'], ['b'], ['c']] ['x'] (by decide) (by decide) (by decide)

end OpencodeMcp
